import Mathlib

/-!
Verification development for the minishop-observability repository.

The definitions below are a shallow embedding of the Go sources:
* the order aggregate state machine
  (`app/internal/domain/order/order.go` and its `OrderState` implementations),
* the create-order use case (`app/internal/application/order/usecase.go`),
* the in-memory event bus (`app/internal/infrastructure/outbox/outbox.go`).

Go mutation is modelled by explicit state passing; `time.Now()` is an explicit
`now : Nat` parameter; Go errors become `Option`/`Except` values.
-/

namespace Minishop

/-! ## Order aggregate (domain/order/order.go, status constants) -/

def statusPending : String := "pending"

def statusInventoryReserved : String := "inventory_reserved"

def statusInventoryFailed : String := "inventory_failed"

def statusCompleted : String := "completed"

def statusPaymentFailed : String := "payment_failed"

/-- Order record, mirroring the exported fields of `Order` in
`domain/order/order.go` (ID, CustomerID, ProductID, Quantity, Amount, Status,
FailureReason, CreatedAt, UpdatedAt).  The `idempotencyKey` field comes from the
revision of the aggregate used by `CreateOrderUseCase.Execute` and the in-memory
repository (both reference `order.IdempotencyKey`); the five-argument
constructor revision leaves it at the zero value `""`.  The unexported cached
`state` field is omitted: it is only ever `nil` or the state object derived from
`Status` (`New`, `ensureState`, `transition` and `Clone` all maintain this), so
re-deriving it from `Status` on every call, exactly as `ensureState` does for a
freshly loaded aggregate, is observationally equivalent. -/
structure Order where
  id : String
  customerID : String
  productID : String
  quantity : Int
  amount : Int
  status : String
  failureReason : String
  idempotencyKey : String
  createdAt : Nat
  updatedAt : Nat
  deriving Repr, DecidableEq

/-- Tags for the five `OrderState` implementations of the state pattern. -/
inductive StateTag where
  | pending
  | inventoryReserved
  | inventoryFailed
  | completed
  | paymentFailed
  deriving Repr, DecidableEq

/-- Status() method of each state object. -/
def StateTag.statusOf : StateTag → String
  | .pending => statusPending
  | .inventoryReserved => statusInventoryReserved
  | .inventoryFailed => statusInventoryFailed
  | .completed => statusCompleted
  | .paymentFailed => statusPaymentFailed

/-- The only transition error the state objects produce
(`ErrInvalidStateTransition` in `domain/order/order.go`). -/
inductive TransErr where
  | invalidStateTransition
  deriving Repr, DecidableEq

/-- Result of one `OnXxx` handler of the `OrderState` interface: the (possibly
mutated) order, the `next OrderState` return value, and the `error` return
value.  Handlers mutate the receiver order in place in Go; here the mutation is
carried in the first component. -/
abbrev HandlerResult := Order × Option StateTag × Option TransErr

/-- OnInventoryReserved of each state (state pattern file). -/
def onInventoryReserved (s : StateTag) (o : Order) : HandlerResult :=
  match s with
  | .pending => ({ o with failureReason := "" }, some .inventoryReserved, none)
  | .inventoryReserved => ({ o with failureReason := "" }, some .inventoryReserved, none)
  | .inventoryFailed => (o, none, some .invalidStateTransition)
  | .completed => (o, some .completed, none)
  | .paymentFailed => (o, none, some .invalidStateTransition)

/-- OnInventoryFailed of each state (state pattern file). -/
def onInventoryFailed (s : StateTag) (o : Order) (reason : String) : HandlerResult :=
  match s with
  | .pending => ({ o with failureReason := reason }, some .inventoryFailed, none)
  | .inventoryReserved => (o, none, some .invalidStateTransition)
  | .inventoryFailed => ({ o with failureReason := reason }, some .inventoryFailed, none)
  | .completed => (o, none, some .invalidStateTransition)
  | .paymentFailed => (o, none, some .invalidStateTransition)

/-- OnPaymentSucceeded of each state (state pattern file). -/
def onPaymentSucceeded (s : StateTag) (o : Order) : HandlerResult :=
  match s with
  | .pending => (o, none, some .invalidStateTransition)
  | .inventoryReserved => ({ o with failureReason := "" }, some .completed, none)
  | .inventoryFailed => (o, none, some .invalidStateTransition)
  | .completed => (o, some .completed, none)
  | .paymentFailed => ({ o with failureReason := "" }, some .completed, none)

/-- OnPaymentFailed of each state (state pattern file). -/
def onPaymentFailed (s : StateTag) (o : Order) (reason : String) : HandlerResult :=
  match s with
  | .pending => (o, none, some .invalidStateTransition)
  | .inventoryReserved => ({ o with failureReason := reason }, some .paymentFailed, none)
  | .inventoryFailed => (o, none, some .invalidStateTransition)
  | .completed => (o, none, some .invalidStateTransition)
  | .paymentFailed => ({ o with failureReason := reason }, some .paymentFailed, none)

/-- `Order.ensureState` (`domain/order/order.go` lines 118-134): derive the
state object from the persisted status string, defaulting to `pendingState`
for any unknown status value. -/
def ensureState (status : String) : StateTag :=
  if status = statusInventoryReserved then .inventoryReserved
  else if status = statusInventoryFailed then .inventoryFailed
  else if status = statusCompleted then .completed
  else if status = statusPaymentFailed then .paymentFailed
  else .pending

/-- `Order.transition` (`domain/order/order.go` lines 105-116): on a handler
error return it, on a `nil` next state return `ErrInvalidStateTransition`,
otherwise install the next state's status and touch `UpdatedAt`. -/
def transitionStep (now : Nat) : HandlerResult → Order × Option TransErr
  | (o, next, err) =>
    match err with
    | some e => (o, some e)
    | none =>
      match next with
      | none => (o, some .invalidStateTransition)
      | some s => ({ o with status := s.statusOf, updatedAt := now }, none)

/-- `Order.InventoryReserved` method. -/
def Order.inventoryReservedM (o : Order) (now : Nat) : Order × Option TransErr :=
  transitionStep now (onInventoryReserved (ensureState o.status) o)

/-- `Order.InventoryReservationFailed` method. -/
def Order.inventoryReservationFailedM (o : Order) (reason : String) (now : Nat) :
    Order × Option TransErr :=
  transitionStep now (onInventoryFailed (ensureState o.status) o reason)

/-- `Order.PaymentSucceeded` method. -/
def Order.paymentSucceededM (o : Order) (now : Nat) : Order × Option TransErr :=
  transitionStep now (onPaymentSucceeded (ensureState o.status) o)

/-- `Order.PaymentFailed` method. -/
def Order.paymentFailedM (o : Order) (reason : String) (now : Nat) :
    Order × Option TransErr :=
  transitionStep now (onPaymentFailed (ensureState o.status) o reason)

/-- The four named transition operations of the aggregate. -/
inductive Trans where
  | inventoryReserved
  | inventoryReservationFailed (reason : String)
  | paymentSucceeded
  | paymentFailed (reason : String)
  deriving Repr, DecidableEq

/-- Apply one named transition operation to an order. -/
def Order.applyTrans (o : Order) (now : Nat) : Trans → Order × Option TransErr
  | .inventoryReserved => o.inventoryReservedM now
  | .inventoryReservationFailed reason => o.inventoryReservationFailedM reason now
  | .paymentSucceeded => o.paymentSucceededM now
  | .paymentFailed reason => o.paymentFailedM reason now

/-- Valid source states of each transition, read off the state pattern file:
the `(currentState, operation)` pairs whose handler returns a non-nil next
state and a nil error. -/
def validSource (s : StateTag) : Trans → Bool
  | .inventoryReserved =>
    match s with
    | .pending => true
    | .inventoryReserved => true
    | .completed => true
    | _ => false
  | .inventoryReservationFailed _ =>
    match s with
    | .pending => true
    | .inventoryFailed => true
    | _ => false
  | .paymentSucceeded =>
    match s with
    | .inventoryReserved => true
    | .paymentFailed => true
    | .completed => true
    | _ => false
  | .paymentFailed _ =>
    match s with
    | .inventoryReserved => true
    | .paymentFailed => true
    | _ => false

/-- Domain construction errors of `New` (`domain/order/order.go`). -/
inductive OrderErr where
  | invalidQuantity
  | invalidAmount
  deriving Repr, DecidableEq

/-- `New` (`domain/order/order.go` lines 39-60): validates quantity and amount
and builds a pending order with both timestamps set to now; `FailureReason` and
the idempotency key are the Go zero value `""`. -/
def Order.new (id customerID productID : String) (quantity amount : Int) (now : Nat) :
    Except OrderErr Order :=
  if quantity ≤ 0 then .error .invalidQuantity
  else if amount < 0 then .error .invalidAmount
  else .ok
    { id := id
      customerID := customerID
      productID := productID
      quantity := quantity
      amount := amount
      status := statusPending
      failureReason := ""
      idempotencyKey := ""
      createdAt := now
      updatedAt := now }

/-! ## Create-order use case (application/order/usecase.go) -/

/-- Modelled from the spec: the revision of the domain constructor taking the
idempotency key, called as `domain.New(orderID, cmd.CustomerID, cmd.ProductID,
cmd.IdempotencyKey, cmd.Quantity, cmd.Amount)` by `CreateOrderUseCase.Execute`,
is not among the provided sources (the present `domain/order/order.go` has the
five-argument `New`).  Following spec section 3 (the order carries an optional
client-supplied idempotency key and is created in `pending`) and the validation
logic of the five-argument `New`. -/
def Order.newWithKey (id customerID productID idemKey : String) (quantity amount : Int)
    (now : Nat) : Except OrderErr Order :=
  if quantity ≤ 0 then .error .invalidQuantity
  else if amount < 0 then .error .invalidAmount
  else .ok
    { id := id
      customerID := customerID
      productID := productID
      quantity := quantity
      amount := amount
      status := statusPending
      failureReason := ""
      idempotencyKey := idemKey
      createdAt := now
      updatedAt := now }

/-- Errors the order repository port can report (`domain.ErrNotFound`,
`domain.ErrConflict`, or any other infrastructure failure). -/
inductive RepoErr where
  | notFound
  | conflict
  | failure (msg : String)
  deriving Repr, DecidableEq

/-- Error kinds returned by `CreateOrderUseCase.Execute`. -/
inductive UCErr where
  | validation (msg : String)
  | contextCanceled
  | notFound
  | conflict
  | repository (msg : String)
  | construct (e : OrderErr)
  deriving Repr, DecidableEq

/-- `wrapRepositoryError` (usecase.go): map repository errors onto the use-case
error taxonomy. -/
def wrapRepositoryError : RepoErr → UCErr
  | .notFound => .notFound
  | .conflict => .conflict
  | .failure msg => .repository msg

/-- `CreateOrderInput` of usecase.go. -/
structure CreateOrderInput where
  idempotencyKey : String
  customerID : String
  productID : String
  quantity : Int
  amount : Int
  deriving Repr, DecidableEq

/-- `CreateOrderResult` of usecase.go. -/
structure CreateOrderResult where
  orderID : String
  status : String
  deriving Repr, DecidableEq

/-- Externally visible side-effecting calls made by `Execute`, in program
order: repository idempotency lookups, the repository insert, and the
`order.created` publish. -/
inductive UCAction where
  | findByIdempotency (customerID key : String)
  | insert (o : Order)
  | publishOrderCreated (orderID : String)
  deriving Repr, DecidableEq

/-- Oracle for the collaborators of one `Execute` run: the outcomes the
repository, publisher and context would give at each call site. -/
structure UCEnv where
  lookup1 : Except RepoErr Order
  insertRes : Option RepoErr
  lookup2 : Except RepoErr Order
  publishErr : Option String
  hasPublisher : Bool
  ctxDone1 : Bool
  ctxDone2 : Bool

/-- Second half of `Execute` (usecase.go lines 202-266): construct the entity,
re-check the context, insert it, on an idempotency-key conflict re-attempt the
lookup once, and on success publish `order.created` while ignoring the publish
outcome for the returned value. -/
def createOrderInsertPhase (env : UCEnv) (cmd : CreateOrderInput) (newID : String) (now : Nat)
    (tr : List UCAction) : Except UCErr CreateOrderResult × List UCAction :=
  match Order.newWithKey newID cmd.customerID cmd.productID cmd.idempotencyKey
      cmd.quantity cmd.amount now with
  | .error e => (.error (.construct e), tr)
  | .ok entity =>
    if env.ctxDone2 then (.error .contextCanceled, tr)
    else
      let tr1 := tr ++ [UCAction.insert entity]
      match env.insertRes with
      | some e =>
        if e = RepoErr.conflict ∧ cmd.idempotencyKey ≠ "" then
          match env.lookup2 with
          | .ok existing =>
            (.ok ⟨existing.id, existing.status⟩,
              tr1 ++ [UCAction.findByIdempotency cmd.customerID cmd.idempotencyKey])
          | .error _ =>
            (.error (wrapRepositoryError e),
              tr1 ++ [UCAction.findByIdempotency cmd.customerID cmd.idempotencyKey])
        else (.error (wrapRepositoryError e), tr1)
      | none =>
        if env.hasPublisher then
          (.ok ⟨entity.id, entity.status⟩, tr1 ++ [UCAction.publishOrderCreated entity.id])
        else (.ok ⟨entity.id, entity.status⟩, tr1)

/-- `CreateOrderUseCase.Execute` (usecase.go lines 162-266), with the
observability plumbing (spans, metrics, logs) dropped: validations, the context
check, the idempotency pre-lookup when a key is supplied, then the
construct/insert/publish phase.  The returned list records the repository and
publisher calls in program order. -/
def createOrderExecute (env : UCEnv) (cmd : CreateOrderInput) (newID : String) (now : Nat) :
    Except UCErr CreateOrderResult × List UCAction :=
  if cmd.customerID = "" then (.error (.validation "customer id is required"), [])
  else if cmd.productID = "" then (.error (.validation "product id is required"), [])
  else if cmd.quantity ≤ 0 then (.error (.validation "quantity must be greater than zero"), [])
  else if cmd.amount ≤ 0 then (.error (.validation "amount must be greater than zero"), [])
  else if env.ctxDone1 then (.error .contextCanceled, [])
  else if cmd.idempotencyKey ≠ "" then
    let tr0 := [UCAction.findByIdempotency cmd.customerID cmd.idempotencyKey]
    match env.lookup1 with
    | .ok existing => (.ok ⟨existing.id, existing.status⟩, tr0)
    | .error RepoErr.notFound => createOrderInsertPhase env cmd newID now tr0
    | .error e => (.error (wrapRepositoryError e), tr0)
  else createOrderInsertPhase env cmd newID now []

/-- Recognizer for idempotency-lookup actions in a trace. -/
def UCAction.isLookup : UCAction → Bool
  | .findByIdempotency _ _ => true
  | _ => false

/-- Recognizer for insert actions in a trace. -/
def UCAction.isInsert : UCAction → Bool
  | .insert _ => true
  | _ => false

/-- Recognizer for publish actions in a trace. -/
def UCAction.isPublish : UCAction → Bool
  | .publishOrderCreated _ => true
  | _ => false

/-! ## Event bus (infrastructure/outbox/outbox.go) -/

/-- An event value as seen by the bus: the Go `Event` interface exposes only
`EventName()`. -/
structure BusEvent where
  name : String
  deriving Repr, DecidableEq

/-- Values `ctx.Err()` can take once a context is done. -/
inductive CtxErr where
  | canceled
  | deadlineExceeded
  deriving Repr, DecidableEq

/-- Which ready case a Go `select` chooses when several cases are ready
simultaneously (the Go runtime picks one uniformly at random). -/
inductive SelectPick where
  | sendCase
  | doneCase
  deriving Repr, DecidableEq

/-- Outcome of one `Bus.Publish` call: the event was enqueued, the nil event
was skipped, the context error was returned (event dropped), or neither select
case was ready and the call is still blocked. -/
inductive PublishRes where
  | okEnqueued (e : BusEvent)
  | okNil
  | errCtx (e : CtxErr)
  | stillBlocked
  deriving Repr, DecidableEq

/-- `Bus.Publish` (outbox.go lines 78-95): a nil event returns nil immediately;
otherwise a `select` races the buffered-queue send against `ctx.Done()`.
`spaceAvailable` and `ctxIsDone` are the readiness of the two cases at the
moment the select can fire; when both are ready `pick` models the runtime's
random choice.  The subscriber table `subs` is part of the bus state but the
method never reads it. -/
def busPublish (subs : List (String × Nat)) (e : Option BusEvent)
    (spaceAvailable ctxIsDone : Bool) (ctxErr : CtxErr) (pick : SelectPick) : PublishRes :=
  match e with
  | none => .okNil
  | some ev =>
    if spaceAvailable && ctxIsDone then
      match pick with
      | .sendCase => .okEnqueued ev
      | .doneCase => .errCtx ctxErr
    else if spaceAvailable then .okEnqueued ev
    else if ctxIsDone then .errCtx ctxErr
    else .stillBlocked

/-- True when the publish call returned an error. -/
def PublishRes.isCtxError : PublishRes → Bool
  | .errCtx _ => true
  | _ => false

/-! ## Handler execution units and panic containment (Bus.fanout) -/

/-- Possible behaviors of one subscribed handler invocation. -/
inductive HandlerBehavior where
  | succeeds
  | fails (msg : String)
  | panics (v : String)
  deriving Repr, DecidableEq

/-- Log records the fanout goroutine can emit for one handler. -/
inductive LogEntry where
  | handlerPanic (event v : String)
  | handlerError (event msg : String)
  deriving Repr, DecidableEq

/-- Observable outcome of one handler goroutine spawned by `Bus.fanout`. -/
structure GoroutineResult where
  logs : List LogEntry
  semReleased : Bool
  wgSignaled : Bool
  panicEscaped : Bool
  deriving Repr, DecidableEq

/-- The non-deferred part of the goroutine body in `Bus.fanout` (outbox.go
lines 146-155): run the handler; a panic unwinds immediately (so the
`event_handler_error` log after the call never runs), otherwise a non-nil
error is logged at warn level. -/
def handlerBodyRun (event : String) (b : HandlerBehavior) : Except String (List LogEntry) :=
  match b with
  | .panics v => .error v
  | .fails msg => .ok [LogEntry.handlerError event msg]
  | .succeeds => .ok []

/-- One handler execution unit of `Bus.fanout` (outbox.go lines 132-156),
with Go's defer/recover semantics made explicit: the deferred closure always
runs, whether or not the body panicked; it calls `recover()` unconditionally
(which returns the in-flight panic value and stops the unwinding), logs the
panic with its stack when one was recovered, then releases the semaphore slot
and signals the wait group.  A panic escapes the goroutine only if the body
panicked and `recover` was not called. -/
def runHandlerUnit (event : String) (b : HandlerBehavior) : GoroutineResult :=
  let body := handlerBodyRun event b
  let panicking : Option String := match body with
    | .error v => some v
    | .ok _ => none
  let bodyLogs : List LogEntry := match body with
    | .ok ls => ls
    | .error _ => []
  let recovered := panicking
  let deferLogs : List LogEntry := match recovered with
    | some v => [LogEntry.handlerPanic event v]
    | none => []
  { logs := bodyLogs ++ deferLogs
    semReleased := true
    wgSignaled := true
    panicEscaped := panicking.isSome && recovered.isNone }

/-- `Bus.fanout` runs every subscribed handler in its own execution unit. -/
def fanoutRun (event : String) (hs : List HandlerBehavior) : List GoroutineResult :=
  hs.map (runHandlerUnit event)

/-! ## Dispatch-loop traces (Bus.dispatchLoop and Bus.fanout) -/

/-- Scheduling actions observable while the bus dispatches events: handler
`hIdx` of the event dequeued at position `evIdx` starts, or completes. -/
inductive BusAction where
  | hstart (evIdx hIdx : Nat)
  | hdone (evIdx hIdx : Nat)
  deriving Repr, DecidableEq

/-- Event index of an action. -/
def BusAction.ev : BusAction → Nat
  | .hstart e _ => e
  | .hdone e _ => e

/-- Handler index of an action. -/
def BusAction.hi : BusAction → Nat
  | .hstart _ h => h
  | .hdone _ h => h

/-- Admissible interleavings of one `Bus.fanout` call for the event at queue
position `i` with `n` subscribed handlers: every action belongs to this event,
each of the `n` handlers starts and completes within the trace (the completions
are what `wg.Wait()` at the end of `fanout` awaits), and a handler's start
precedes its completion.  This over-approximates the genuine schedules (it does
not impose the semaphore bound of 8), which is sound for both the universal
ordering theorem and the non-existence counterexample below. -/
def IsFanoutTrace (i n : Nat) (t : List BusAction) : Prop :=
  (∀ a ∈ t, a.ev = i ∧ a.hi < n) ∧
  (∀ j < n, BusAction.hstart i j ∈ t) ∧
  (∀ j < n, BusAction.hdone i j ∈ t) ∧
  (∀ k1 < t.length, ∀ k2 < t.length, ∀ j < n,
    t[k1]? = some (BusAction.hstart i j) → t[k2]? = some (BusAction.hdone i j) → k1 < k2)

/-- Admissible traces of `Bus.dispatchLoop` (outbox.go lines 97-109) for a
queue whose event at position `i + k` has `ns[k]` subscribed handlers: the
single loop dequeues events in FIFO order and calls `fanout` synchronously,
and `fanout` returns only after `wg.Wait()` (outbox.go line 159) has seen all
its handlers complete, so the full fanout trace of each event precedes the
trace of the next. -/
inductive IsDispatchTrace : Nat → List Nat → List BusAction → Prop where
  | nil (i : Nat) : IsDispatchTrace i [] []
  | cons (i n : Nat) (ns : List Nat) (t1 t2 : List BusAction) :
      IsFanoutTrace i n t1 → IsDispatchTrace (i + 1) ns t2 →
      IsDispatchTrace i (n :: ns) (t1 ++ t2)

/-- Invariant of the order aggregate: the failure reason is non-empty only in
a failed status. -/
def FailureReasonInv (o : Order) : Prop :=
  o.failureReason ≠ "" → o.status = statusInventoryFailed ∨ o.status = statusPaymentFailed

/-! ## Sample order used by the witnesses -/

/-- A concrete order with the given status and failure reason. -/
def mkOrder (status failureReason : String) : Order :=
  { id := "o1"
    customerID := "c1"
    productID := "p1"
    quantity := 1
    amount := 100
    status := status
    failureReason := failureReason
    idempotencyKey := ""
    createdAt := 0
    updatedAt := 0 }

/-- The entity `Execute` constructs for input `cmd` under generated ID `newID`
at time `now` (the success value of `Order.newWithKey`). -/
def createdEntity (cmd : CreateOrderInput) (newID : String) (now : Nat) : Order :=
  { id := newID
    customerID := cmd.customerID
    productID := cmd.productID
    quantity := cmd.quantity
    amount := cmd.amount
    status := statusPending
    failureReason := ""
    idempotencyKey := cmd.idempotencyKey
    createdAt := now
    updatedAt := now }

/-- A collaborator environment for the use-case witnesses: idempotency miss,
successful insert, failing publish. -/
def sampleEnv : UCEnv :=
  { lookup1 := .error RepoErr.notFound
    insertRes := none
    lookup2 := .error RepoErr.notFound
    publishErr := some "publish timeout"
    hasPublisher := true
    ctxDone1 := false
    ctxDone2 := false }

/-- Same environment, but the insert reports a conflict and the re-lookup
finds the concurrently inserted order. -/
def sampleEnvConflict : UCEnv :=
  { sampleEnv with
    insertRes := some RepoErr.conflict
    lookup2 := .ok (mkOrder statusPending "") }

/-- A valid creation input carrying an idempotency key. -/
def sampleCmd : CreateOrderInput :=
  { idempotencyKey := "k1"
    customerID := "c1"
    productID := "p1"
    quantity := 1
    amount := 100 }

/-! ## Theorems -/

theorem ensureState_eq_inventoryReserved {s : String} :
    ensureState s = .inventoryReserved ↔ s = statusInventoryReserved := by
  unfold ensureState
  split_ifs with h1 h2 h3 h4 <;>
    simp_all [statusInventoryReserved, statusInventoryFailed, statusCompleted,
      statusPaymentFailed]

theorem ensureState_eq_inventoryFailed {s : String} :
    ensureState s = .inventoryFailed ↔ s = statusInventoryFailed := by
  unfold ensureState
  split_ifs with h1 h2 h3 h4 <;>
    simp_all [statusInventoryReserved, statusInventoryFailed, statusCompleted,
      statusPaymentFailed]

theorem ensureState_eq_completed {s : String} :
    ensureState s = .completed ↔ s = statusCompleted := by
  unfold ensureState
  split_ifs with h1 h2 h3 h4 <;>
    simp_all [statusInventoryReserved, statusInventoryFailed, statusCompleted,
      statusPaymentFailed]

theorem ensureState_eq_paymentFailed {s : String} :
    ensureState s = .paymentFailed ↔ s = statusPaymentFailed := by
  unfold ensureState
  split_ifs with h1 h2 h3 h4 <;>
    simp_all [statusInventoryReserved, statusInventoryFailed, statusCompleted,
      statusPaymentFailed]

/-- C1: every transition operation invoked on an order whose current status is
not a valid source state for that transition returns the
`InvalidStateTransition` error and hands back the order with every field
(status, failure reason, timestamps and all others) unchanged. -/
theorem invalid_source_transition_rejected (o : Order) (now : Nat) (t : Trans)
    (h : validSource (ensureState o.status) t = false) :
    o.applyTrans now t = (o, some TransErr.invalidStateTransition) := by
  cases t <;> cases hs : ensureState o.status <;>
    simp_all [Order.applyTrans, Order.inventoryReservedM, Order.inventoryReservationFailedM,
      Order.paymentSucceededM, Order.paymentFailedM, validSource, transitionStep,
      onInventoryReserved, onInventoryFailed, onPaymentSucceeded, onPaymentFailed]

theorem invalid_source_transition_rejected_witness :
    validSource (ensureState (mkOrder statusCompleted "").status) (Trans.paymentFailed "late") = false ∧
    (mkOrder statusCompleted "").applyTrans 7 (Trans.paymentFailed "late") =
      (mkOrder statusCompleted "", some TransErr.invalidStateTransition) :=
  ⟨by decide, invalid_source_transition_rejected (mkOrder statusCompleted "") 7
    (Trans.paymentFailed "late") (by decide)⟩

/-- C3 counterexample: on an order in status inventory_failed the
`InventoryReservationFailed` operation does not return an error and does not
leave the order unchanged — it overwrites the failure reason and touches the
update timestamp, refuting "every transition operation returns an error and
leaves the order unchanged". -/
theorem inventory_failed_not_terminal_counterexample :
    ((mkOrder statusInventoryFailed "out of stock").applyTrans 7
        (Trans.inventoryReservationFailed "still out")).2 = none ∧
    ((mkOrder statusInventoryFailed "out of stock").applyTrans 7
        (Trans.inventoryReservationFailed "still out")).1 ≠
      mkOrder statusInventoryFailed "out of stock" := by
  constructor <;> decide

/-- C3 amended: an order in status inventory_failed rejects InventoryReserved,
PaymentSucceeded and PaymentFailed with the InvalidStateTransition error and
stays unchanged, while InventoryReservationFailed is accepted idempotently:
the order remains in inventory_failed with the failure reason overwritten and
the update timestamp advanced. -/
theorem inventory_failed_transitions (o : Order) (now : Nat) (reason : String)
    (h : o.status = statusInventoryFailed) :
    o.applyTrans now Trans.inventoryReserved = (o, some TransErr.invalidStateTransition) ∧
    o.applyTrans now Trans.paymentSucceeded = (o, some TransErr.invalidStateTransition) ∧
    o.applyTrans now (Trans.paymentFailed reason) = (o, some TransErr.invalidStateTransition) ∧
    o.applyTrans now (Trans.inventoryReservationFailed reason) =
      ({ o with status := statusInventoryFailed, failureReason := reason, updatedAt := now },
        none) := by
  have hs : ensureState o.status = .inventoryFailed := ensureState_eq_inventoryFailed.2 h
  simp [Order.applyTrans, Order.inventoryReservedM, Order.inventoryReservationFailedM,
    Order.paymentSucceededM, Order.paymentFailedM, hs, transitionStep,
    onInventoryReserved, onInventoryFailed, onPaymentSucceeded, onPaymentFailed,
    StateTag.statusOf]

theorem inventory_failed_transitions_witness :
    (mkOrder statusInventoryFailed "r0").status = statusInventoryFailed ∧
    (mkOrder statusInventoryFailed "r0").applyTrans 7 (Trans.inventoryReservationFailed "r1") =
      ({ mkOrder statusInventoryFailed "r0" with
          status := statusInventoryFailed, failureReason := "r1", updatedAt := 7 }, none) :=
  ⟨by decide,
    (inventory_failed_transitions (mkOrder statusInventoryFailed "r0") 7 "r1" (by decide)).2.2.2⟩

/-- C8: repeated success signals are idempotent no-op successes — on an order
in status inventory_reserved, InventoryReserved succeeds and leaves the status
inventory_reserved; on an order in status completed, InventoryReserved and
PaymentSucceeded succeed and leave the status completed; PaymentFailed on a
completed order returns an error. -/
theorem terminal_idempotent_signals (o : Order) (now : Nat) (reason : String) :
    (o.status = statusInventoryReserved →
      o.applyTrans now Trans.inventoryReserved =
        ({ o with status := statusInventoryReserved, failureReason := "", updatedAt := now },
          none)) ∧
    (o.status = statusCompleted →
      o.applyTrans now Trans.inventoryReserved =
        ({ o with status := statusCompleted, updatedAt := now }, none) ∧
      o.applyTrans now Trans.paymentSucceeded =
        ({ o with status := statusCompleted, updatedAt := now }, none) ∧
      o.applyTrans now (Trans.paymentFailed reason) =
        (o, some TransErr.invalidStateTransition)) := by
  constructor
  · intro h
    have hs : ensureState o.status = .inventoryReserved := ensureState_eq_inventoryReserved.2 h
    simp [Order.applyTrans, Order.inventoryReservedM, hs, transitionStep,
      onInventoryReserved, StateTag.statusOf]
  · intro h
    have hs : ensureState o.status = .completed := ensureState_eq_completed.2 h
    simp [Order.applyTrans, Order.inventoryReservedM, Order.paymentSucceededM,
      Order.paymentFailedM, hs, transitionStep, onInventoryReserved,
      onPaymentSucceeded, onPaymentFailed, StateTag.statusOf]

theorem terminal_idempotent_signals_witness :
    (mkOrder statusInventoryReserved "").applyTrans 7 Trans.inventoryReserved =
      ({ mkOrder statusInventoryReserved "" with
          status := statusInventoryReserved, failureReason := "", updatedAt := 7 }, none) ∧
    (mkOrder statusCompleted "").applyTrans 7 (Trans.paymentFailed "late") =
      (mkOrder statusCompleted "", some TransErr.invalidStateTransition) :=
  ⟨(terminal_idempotent_signals (mkOrder statusInventoryReserved "") 7 "late").1 (by decide),
    ((terminal_idempotent_signals (mkOrder statusCompleted "") 7 "late").2 (by decide)).2.2⟩

/-- C10: an order whose persisted status field holds any value outside the
five defined statuses re-derives pending behavior — InventoryReserved and
InventoryReservationFailed succeed (moving it to inventory_reserved and
inventory_failed respectively), while PaymentSucceeded and PaymentFailed fail
with InvalidStateTransition. -/
theorem unknown_status_behaves_as_pending (o : Order) (now : Nat) (reason : String)
    (h1 : o.status ≠ statusPending) (h2 : o.status ≠ statusInventoryReserved)
    (h3 : o.status ≠ statusInventoryFailed) (h4 : o.status ≠ statusCompleted)
    (h5 : o.status ≠ statusPaymentFailed) :
    o.applyTrans now Trans.inventoryReserved =
      ({ o with status := statusInventoryReserved, failureReason := "", updatedAt := now },
        none) ∧
    o.applyTrans now (Trans.inventoryReservationFailed reason) =
      ({ o with status := statusInventoryFailed, failureReason := reason, updatedAt := now },
        none) ∧
    o.applyTrans now Trans.paymentSucceeded = (o, some TransErr.invalidStateTransition) ∧
    o.applyTrans now (Trans.paymentFailed reason) = (o, some TransErr.invalidStateTransition) := by
  have hs : ensureState o.status = .pending := by
    unfold ensureState
    simp [h2, h3, h4, h5]
  simp [Order.applyTrans, Order.inventoryReservedM, Order.inventoryReservationFailedM,
    Order.paymentSucceededM, Order.paymentFailedM, hs, transitionStep,
    onInventoryReserved, onInventoryFailed, onPaymentSucceeded, onPaymentFailed,
    StateTag.statusOf]

theorem unknown_status_behaves_as_pending_witness :
    (mkOrder "" "").applyTrans 7 Trans.inventoryReserved =
      ({ mkOrder "" "" with
          status := statusInventoryReserved, failureReason := "", updatedAt := 7 }, none) ∧
    (mkOrder "" "").applyTrans 7 Trans.paymentSucceeded =
      (mkOrder "" "", some TransErr.invalidStateTransition) :=
  ⟨(unknown_status_behaves_as_pending (mkOrder "" "") 7 "r" (by decide) (by decide)
      (by decide) (by decide) (by decide)).1,
    (unknown_status_behaves_as_pending (mkOrder "" "") 7 "r" (by decide) (by decide)
      (by decide) (by decide) (by decide)).2.2.1⟩

/-- C9: the failure-reason invariant (non-empty only in a failed status) holds
for every order built by the constructor, is preserved by every successful
transition, and in particular the progressing transitions InventoryReserved
and PaymentSucceeded leave an empty failure reason, and a newly constructed
order has an empty failure reason. -/
theorem failure_reason_invariant_preserved :
    (∀ (id c p : String) (q a : Int) (now : Nat) (o0 : Order),
        Order.new id c p q a now = .ok o0 →
        o0.failureReason = "" ∧ FailureReasonInv o0) ∧
    (∀ (o : Order) (now : Nat) (t : Trans) (o1 : Order),
        FailureReasonInv o → o.applyTrans now t = (o1, none) → FailureReasonInv o1) ∧
    (∀ (o : Order) (now : Nat) (o1 : Order), FailureReasonInv o →
        (o.applyTrans now Trans.inventoryReserved = (o1, none) → o1.failureReason = "") ∧
        (o.applyTrans now Trans.paymentSucceeded = (o1, none) → o1.failureReason = "")) := by
  refine ⟨?_, ?_, ?_⟩
  · intro id c p q a now o0 h
    unfold Order.new at h
    split_ifs at h with h1 h2 <;> simp only [Except.ok.injEq] at h
    subst h
    exact ⟨rfl, fun hfr => absurd rfl hfr⟩
  · intro o now t o1 hinv happ
    cases t <;> cases hs : ensureState o.status <;>
      simp [Order.applyTrans, Order.inventoryReservedM, Order.inventoryReservationFailedM,
        Order.paymentSucceededM, Order.paymentFailedM, hs, transitionStep,
        onInventoryReserved, onInventoryFailed, onPaymentSucceeded, onPaymentFailed,
        StateTag.statusOf] at happ
    all_goals
      subst happ
      intro hfr
      first
      | (left; rfl)
      | (right; rfl)
      | exact absurd rfl hfr
      | (have hc := ensureState_eq_completed.1 hs
         rcases hinv hfr with hh | hh <;> rw [hc] at hh <;> exact absurd hh (by decide))
  · intro o now o1 hinv
    constructor
    · intro happ
      cases hs : ensureState o.status <;>
        simp [Order.applyTrans, Order.inventoryReservedM, hs, transitionStep,
          onInventoryReserved, StateTag.statusOf] at happ
      all_goals
        subst happ
        first
        | rfl
        | (by_contra hne
           have hc := ensureState_eq_completed.1 hs
           rcases hinv hne with hh | hh <;> rw [hc] at hh <;> exact absurd hh (by decide))
    · intro happ
      cases hs : ensureState o.status <;>
        simp [Order.applyTrans, Order.paymentSucceededM, hs, transitionStep,
          onPaymentSucceeded, StateTag.statusOf] at happ
      all_goals
        subst happ
        first
        | rfl
        | (by_contra hne
           have hc := ensureState_eq_completed.1 hs
           rcases hinv hne with hh | hh <;> rw [hc] at hh <;> exact absurd hh (by decide))

theorem failure_reason_invariant_preserved_witness :
    ((mkOrder statusPending "").failureReason = "" ∧ FailureReasonInv (mkOrder statusPending "")) ∧
    FailureReasonInv ({ mkOrder statusPending "" with
      status := statusInventoryReserved, failureReason := "", updatedAt := 7 }) :=
  ⟨failure_reason_invariant_preserved.1 "o1" "c1" "p1" 1 100 0 (mkOrder statusPending "")
      (by rfl),
    failure_reason_invariant_preserved.2.1 (mkOrder statusPending "") 7 Trans.inventoryReserved
      ({ mkOrder statusPending "" with
          status := statusInventoryReserved, failureReason := "", updatedAt := 7 })
      (fun hfr => absurd rfl hfr) (by decide)⟩


theorem createOrderInsertPhase_trace_append (env : UCEnv) (cmd : CreateOrderInput)
    (newID : String) (now : Nat) (tr : List UCAction) :
    ∃ rest, (createOrderInsertPhase env cmd newID now tr).2 = tr ++ rest := by
  unfold createOrderInsertPhase
  cases Order.newWithKey newID cmd.customerID cmd.productID cmd.idempotencyKey
      cmd.quantity cmd.amount now with
  | error e => exact ⟨[], by simp⟩
  | ok entity =>
    by_cases hctx : env.ctxDone2
    · exact ⟨[], by simp [hctx]⟩
    · cases env.insertRes with
      | none =>
        by_cases hpub : env.hasPublisher
        · exact ⟨[UCAction.insert entity, UCAction.publishOrderCreated entity.id],
            by simp [hctx, hpub]⟩
        · exact ⟨[UCAction.insert entity], by simp [hctx, hpub]⟩
      | some e =>
        by_cases hcf : e = RepoErr.conflict ∧ cmd.idempotencyKey ≠ ""
        · cases env.lookup2 with
          | ok existing =>
            exact ⟨[UCAction.insert entity,
              UCAction.findByIdempotency cmd.customerID cmd.idempotencyKey],
              by simp [hctx, hcf]⟩
          | error e2 =>
            exact ⟨[UCAction.insert entity,
              UCAction.findByIdempotency cmd.customerID cmd.idempotencyKey],
              by simp [hctx, hcf]⟩
        · exact ⟨[UCAction.insert entity], by simp [hctx, hcf]⟩

/-- C2: with a non-empty idempotency key, `Execute` performs the
(customer ID, key) lookup before any other side effect; a lookup hit returns
the existing order's ID and status verbatim with no insert and no publish; and
when the insert reports a conflict the lookup is re-attempted exactly once —
the trace is lookup, insert, lookup — after which a hit replays the existing
order and a miss surfaces the conflict error. -/
theorem create_order_idempotency (env : UCEnv) (cmd : CreateOrderInput) (newID : String)
    (now : Nat)
    (hc : cmd.customerID ≠ "") (hp : cmd.productID ≠ "") (hq : 0 < cmd.quantity)
    (ha : 0 < cmd.amount) (hctx : env.ctxDone1 = false) (hk : cmd.idempotencyKey ≠ "") :
    ((createOrderExecute env cmd newID now).2.head? =
      some (UCAction.findByIdempotency cmd.customerID cmd.idempotencyKey)) ∧
    (∀ existing, env.lookup1 = .ok existing →
      createOrderExecute env cmd newID now =
        (.ok ⟨existing.id, existing.status⟩,
          [UCAction.findByIdempotency cmd.customerID cmd.idempotencyKey])) ∧
    (env.lookup1 = .error RepoErr.notFound → env.ctxDone2 = false →
      env.insertRes = some RepoErr.conflict →
      ∃ entity,
        (createOrderExecute env cmd newID now).2 =
          [UCAction.findByIdempotency cmd.customerID cmd.idempotencyKey,
            UCAction.insert entity,
            UCAction.findByIdempotency cmd.customerID cmd.idempotencyKey] ∧
        (∀ existing, env.lookup2 = .ok existing →
          (createOrderExecute env cmd newID now).1 = .ok ⟨existing.id, existing.status⟩) ∧
        (∀ e2, env.lookup2 = .error e2 →
          (createOrderExecute env cmd newID now).1 = .error UCErr.conflict)) := by
  have hq' : ¬ (cmd.quantity ≤ 0) := by omega
  have ha' : ¬ (cmd.amount ≤ 0) := by omega
  have hnew : Order.newWithKey newID cmd.customerID cmd.productID cmd.idempotencyKey
      cmd.quantity cmd.amount now = .ok (createdEntity cmd newID now) := by
    have ha2 : ¬ (cmd.amount < 0) := by omega
    unfold Order.newWithKey createdEntity
    simp [hq', ha2]
  refine ⟨?_, ?_, ?_⟩
  · unfold createOrderExecute
    simp only [hc, hp, hq', ha', hctx, hk, if_false, if_true, ite_false, ite_true,
      ne_eq, not_false_eq_true]
    cases env.lookup1 with
    | ok existing => simp
    | error e =>
      cases e with
      | notFound =>
        simp only []
        obtain ⟨rest, hrest⟩ := createOrderInsertPhase_trace_append env cmd newID now
          [UCAction.findByIdempotency cmd.customerID cmd.idempotencyKey]
        simp [hrest]
      | conflict => simp
      | failure msg => simp
  · intro existing hl
    unfold createOrderExecute
    simp [hc, hp, hq', ha', hctx, hk, hl]
  · intro hl hctx2 hins
    refine ⟨createdEntity cmd newID now, ?_, ?_, ?_⟩
    · unfold createOrderExecute createOrderInsertPhase
      cases hl2 : env.lookup2 with
      | ok existing => simp [hc, hp, hq', ha', hctx, hk, hl, hctx2, hins, hnew, hl2]
      | error e2 => simp [hc, hp, hq', ha', hctx, hk, hl, hctx2, hins, hnew, hl2]
    · intro existing hl2
      unfold createOrderExecute createOrderInsertPhase
      simp [hc, hp, hq', ha', hctx, hk, hl, hctx2, hins, hnew, hl2]
    · intro e2 hl2
      unfold createOrderExecute createOrderInsertPhase
      simp [hc, hp, hq', ha', hctx, hk, hl, hctx2, hins, hnew, hl2, wrapRepositoryError]

theorem create_order_idempotency_witness :
    ((createOrderExecute sampleEnv sampleCmd "o9" 3).2.head? =
      some (UCAction.findByIdempotency "c1" "k1")) ∧
    (createOrderExecute sampleEnvConflict sampleCmd "o9" 3).1 =
      .ok ⟨"o1", statusPending⟩ := by
  constructor
  · exact (create_order_idempotency sampleEnv sampleCmd "o9" 3 (by decide) (by decide)
      (by decide) (by decide) rfl (by decide)).1
  · obtain ⟨entity, htr, hok, herr⟩ :=
      (create_order_idempotency sampleEnvConflict sampleCmd "o9" 3 (by decide) (by decide)
        (by decide) (by decide) rfl (by decide)).2.2 rfl rfl rfl
    exact hok (mkOrder statusPending "") rfl

/-- C5: for a valid creation input, once the insert has succeeded `Execute`
returns success with the new order's ID and pending status, whatever the
publish outcome recorded in the environment is; changing the publish outcome
never changes the returned value. -/
theorem create_order_publish_failure_not_propagated (env : UCEnv) (cmd : CreateOrderInput)
    (newID : String) (now : Nat)
    (hc : cmd.customerID ≠ "") (hp : cmd.productID ≠ "") (hq : 0 < cmd.quantity)
    (ha : 0 < cmd.amount) (hctx1 : env.ctxDone1 = false) (hctx2 : env.ctxDone2 = false)
    (hmiss : cmd.idempotencyKey = "" ∨ env.lookup1 = .error RepoErr.notFound)
    (hins : env.insertRes = none) :
    (createOrderExecute env cmd newID now).1 = .ok ⟨newID, statusPending⟩ ∧
    (∀ pe, (createOrderExecute { env with publishErr := pe } cmd newID now).1 =
      (createOrderExecute env cmd newID now).1) := by
  have hq' : ¬ (cmd.quantity ≤ 0) := by omega
  have ha' : ¬ (cmd.amount ≤ 0) := by omega
  have hnew : Order.newWithKey newID cmd.customerID cmd.productID cmd.idempotencyKey
      cmd.quantity cmd.amount now = .ok (createdEntity cmd newID now) := by
    have ha2 : ¬ (cmd.amount < 0) := by omega
    unfold Order.newWithKey createdEntity
    simp [hq', ha2]
  constructor
  · by_cases hk : cmd.idempotencyKey = ""
    · rw [hk] at hnew
      unfold createOrderExecute createOrderInsertPhase
      by_cases hpub : env.hasPublisher <;>
        simp [hc, hp, hq', ha', hctx1, hctx2, hk, hins, hnew, hpub, createdEntity]
    · rcases hmiss with hmiss | hmiss
      · exact absurd hmiss hk
      · unfold createOrderExecute createOrderInsertPhase
        by_cases hpub : env.hasPublisher <;>
          simp [hc, hp, hq', ha', hctx1, hctx2, hk, hmiss, hins, hnew, hpub, createdEntity]
  · intro pe
    rfl

theorem create_order_publish_failure_not_propagated_witness :
    (createOrderExecute sampleEnv sampleCmd "o9" 3).1 = .ok ⟨"o9", statusPending⟩ :=
  (create_order_publish_failure_not_propagated sampleEnv sampleCmd "o9" 3 (by decide)
    (by decide) (by decide) (by decide) rfl rfl (Or.inr rfl) rfl).1

/-- C6 counterexample: with buffer space available and the context already
done, the select may take the ctx.Done branch, so `Publish` returns an error
even though the event is non-nil and buffer space was available the whole
time — refuting "returns an error if and only if the event is non-nil and the
caller's context is done before buffer space becomes available". -/
theorem bus_publish_iff_counterexample :
    ¬ (((busPublish [] (some ⟨"order.created"⟩) true true CtxErr.canceled
          SelectPick.doneCase).isCtxError = true) ↔
        (some (⟨"order.created"⟩ : BusEvent) ≠ none ∧ true = true ∧ true = false)) := by
  decide

/-- C6 amended: `Publish` returns an error only if the event is non-nil and
the context is done, and then the result is the context's error with the event
dropped (not enqueued); with the context done and no buffer space available it
always returns that error; with space available and the context not done it
always enqueues; a nil event is an immediate no-op success; and the presence
or absence of subscribers never affects the result.  When the context is done
and space is available simultaneously, either outcome may occur (the select
picks at random). -/
theorem bus_publish_error_conditions (subs1 subs2 : List (String × Nat))
    (e : Option BusEvent) (space dn : Bool) (ce : CtxErr) (pick : SelectPick) :
    ((busPublish subs1 e space dn ce pick).isCtxError = true →
      e ≠ none ∧ dn = true ∧ busPublish subs1 e space dn ce pick = .errCtx ce) ∧
    (e ≠ none → dn = true → space = false →
      busPublish subs1 e space dn ce pick = .errCtx ce) ∧
    (∀ ev, e = some ev → space = true → dn = false →
      busPublish subs1 e space dn ce pick = .okEnqueued ev) ∧
    (e = none → busPublish subs1 e space dn ce pick = .okNil) ∧
    busPublish subs1 e space dn ce pick = busPublish subs2 e space dn ce pick := by
  cases e <;> cases space <;> cases dn <;> cases pick <;>
    simp [busPublish, PublishRes.isCtxError]

theorem bus_publish_error_conditions_witness :
    busPublish [] (some ⟨"order.created"⟩) false true CtxErr.canceled SelectPick.sendCase =
      PublishRes.errCtx CtxErr.canceled :=
  (bus_publish_error_conditions [] [("order.created", 1)] (some ⟨"order.created"⟩) false true
    CtxErr.canceled SelectPick.sendCase).2.1 (by decide) rfl rfl

/-- C7: for every event and every list of handler behaviors, a panic raised in
a handler is caught at the boundary of its execution unit: it never escapes
the goroutine (so it cannot terminate the dispatch loop), the semaphore permit
is always released and the wait group always signalled (so no other handler
is prevented from completing), the recovered panic is logged, and every
subscribed handler gets its own completed execution unit. -/
theorem fanout_panic_contained (event : String) (hs : List HandlerBehavior) :
    (fanoutRun event hs).length = hs.length ∧
    (∀ r ∈ fanoutRun event hs,
      r.panicEscaped = false ∧ r.semReleased = true ∧ r.wgSignaled = true) ∧
    (∀ v, ∀ b ∈ hs, b = HandlerBehavior.panics v →
      LogEntry.handlerPanic event v ∈ (runHandlerUnit event b).logs) := by
  refine ⟨by simp [fanoutRun], ?_, ?_⟩
  · intro r hr
    simp only [fanoutRun, List.mem_map] at hr
    obtain ⟨b, hb, rfl⟩ := hr
    cases b <;> simp [runHandlerUnit, handlerBodyRun]
  · intro v b hb hbv
    subst hbv
    simp [runHandlerUnit, handlerBodyRun]

theorem fanout_panic_contained_witness :
    (fanoutRun "order.created" [HandlerBehavior.panics "boom", HandlerBehavior.succeeds]).length
      = 2 ∧
    (runHandlerUnit "order.created" (HandlerBehavior.panics "boom")).panicEscaped = false ∧
    LogEntry.handlerPanic "order.created" "boom" ∈
      (runHandlerUnit "order.created" (HandlerBehavior.panics "boom")).logs :=
  ⟨(fanout_panic_contained "order.created"
      [HandlerBehavior.panics "boom", HandlerBehavior.succeeds]).1,
    ((fanout_panic_contained "order.created"
      [HandlerBehavior.panics "boom", HandlerBehavior.succeeds]).2.1
      (runHandlerUnit "order.created" (HandlerBehavior.panics "boom")) (by decide)).1,
    (fanout_panic_contained "order.created"
      [HandlerBehavior.panics "boom", HandlerBehavior.succeeds]).2.2 "boom"
      (HandlerBehavior.panics "boom") (by decide) rfl⟩

theorem mem_of_index_some {α : Type} {l : List α} {n : Nat} {a : α}
    (h : l[n]? = some a) : a ∈ l := by
  obtain ⟨hlt, he⟩ := List.getElem?_eq_some.1 h
  exact he ▸ List.getElem_mem hlt

theorem dispatchTrace_event_lower_bound {i : Nat} {ns : List Nat} {t : List BusAction}
    (h : IsDispatchTrace i ns t) : ∀ a ∈ t, i ≤ a.ev := by
  induction h with
  | nil i => intro a ha; cases ha
  | cons i n ns t1 t2 hf hd ih =>
    intro a ha
    rcases List.mem_append.1 ha with h1 | h2
    · exact le_of_eq (hf.1 a h1).1.symm
    · exact le_trans (Nat.le_succ i) (ih a h2)

theorem dispatchTrace_serialized {i : Nat} {ns : List Nat} {t : List BusAction}
    (h : IsDispatchTrace i ns t) :
    ∀ (k1 k2 e1 h1 e2 h2 : Nat), e1 < e2 →
      t[k1]? = some (BusAction.hdone e1 h1) →
      t[k2]? = some (BusAction.hstart e2 h2) → k1 < k2 := by
  induction h with
  | nil i => intro k1 k2 e1 h1 e2 h2 _ hd _; simp at hd
  | cons i n ns t1 t2 hf hdt ih =>
    intro k1 k2 e1 h1 e2 h2 hlt hd hsrt
    by_cases hk1 : k1 < t1.length
    · by_cases hk2 : k2 < t1.length
      · rw [List.getElem?_append_left hk1] at hd
        rw [List.getElem?_append_left hk2] at hsrt
        have he1 := (hf.1 _ (mem_of_index_some hd)).1
        have he2 := (hf.1 _ (mem_of_index_some hsrt)).1
        simp [BusAction.ev] at he1 he2
        omega
      · omega
    · push_neg at hk1
      rw [List.getElem?_append_right hk1] at hd
      have he1 := dispatchTrace_event_lower_bound hdt _ (mem_of_index_some hd)
      simp [BusAction.ev] at he1
      by_cases hk2 : k2 < t1.length
      · rw [List.getElem?_append_left hk2] at hsrt
        have he2 := (hf.1 _ (mem_of_index_some hsrt)).1
        simp [BusAction.ev] at he2
        omega
      · push_neg at hk2
        rw [List.getElem?_append_right hk2] at hsrt
        have := ih (k1 - t1.length) (k2 - t1.length) e1 h1 e2 h2 hlt hd hsrt
        omega

/-- C4 counterexample: for a queue of two events with one handler each there is
no admissible dispatch trace in which the handler of event 1 starts before the
handler of event 0 has completed — dequeue and fanout of event N+1 can never
begin while a handler of event N is still running, because `fanout` only
returns after `wg.Wait()`. -/
theorem dispatch_no_overlap_counterexample :
    ¬ ∃ (t : List BusAction) (k1 k2 h1 h2 : Nat),
      IsDispatchTrace 0 [1, 1] t ∧ k1 < k2 ∧
      t[k1]? = some (BusAction.hstart 1 h1) ∧ t[k2]? = some (BusAction.hdone 0 h2) := by
  rintro ⟨t, k1, k2, h1, h2, htr, hk, hs, hd⟩
  have := dispatchTrace_serialized htr k2 k1 0 h2 1 h1 (by omega) hd hs
  omega

/-- C4 amended: the dispatch loop serializes handler completion, not just the
handoff — in every admissible dispatch trace, every handler completion of an
earlier event precedes every handler start of a later event, because `fanout`
returns only after its `wg.Wait()` has seen all handlers of the current event
complete, and only then does the loop dequeue the next event. -/
theorem dispatch_awaits_completion_before_next (i : Nat) (ns : List Nat) (t : List BusAction)
    (h : IsDispatchTrace i ns t) (k1 k2 e1 h1 e2 h2 : Nat) (hlt : e1 < e2)
    (hd : t[k1]? = some (BusAction.hdone e1 h1))
    (hs : t[k2]? = some (BusAction.hstart e2 h2)) : k1 < k2 :=
  dispatchTrace_serialized h k1 k2 e1 h1 e2 h2 hlt hd hs

theorem dispatch_awaits_completion_before_next_witness : (1 : Nat) < 2 := by
  have hf0 : IsFanoutTrace 0 1 [BusAction.hstart 0 0, BusAction.hdone 0 0] := by
    unfold IsFanoutTrace
    refine ⟨by decide, by decide, by decide, ?_⟩
    intro k1 hk1 k2 hk2 j hj h1 h2
    simp at hk1 hk2
    interval_cases j
    interval_cases k1 <;> interval_cases k2 <;> first | omega | simp_all
  have hf1 : IsFanoutTrace 1 1 [BusAction.hstart 1 0, BusAction.hdone 1 0] := by
    unfold IsFanoutTrace
    refine ⟨by decide, by decide, by decide, ?_⟩
    intro k1 hk1 k2 hk2 j hj h1 h2
    simp at hk1 hk2
    interval_cases j
    interval_cases k1 <;> interval_cases k2 <;> first | omega | simp_all
  have hd1 : IsDispatchTrace 1 [1] ([BusAction.hstart 1 0, BusAction.hdone 1 0] ++ []) :=
    IsDispatchTrace.cons 1 1 [] _ _ hf1 (IsDispatchTrace.nil 2)
  rw [List.append_nil] at hd1
  have hd0 : IsDispatchTrace 0 [1, 1]
      ([BusAction.hstart 0 0, BusAction.hdone 0 0] ++
        [BusAction.hstart 1 0, BusAction.hdone 1 0]) :=
    IsDispatchTrace.cons 0 1 [1] _ _ hf0 hd1
  exact dispatch_awaits_completion_before_next 0 [1, 1] _ hd0 1 2 0 0 1 0 (by omega)
    (by decide) (by decide)

end Minishop

